import Mathlib

/-
Verification of the Astronomia coordinate-transformation core
(src/Astronomia/chapters/coordinates.py, src/Astronomia/core/utils.py,
src/Astronomia/core/constants.py) against its natural-language specification.

Shallow embedding conventions:
* Python floats are modelled as real numbers (ℝ).
* Fallible Python code is modelled in the `Except PyError` monad.  Each
  `PyError` constructor corresponds to a concrete Python exception site,
  documented at the constructor.
* `utils.py` defines only `to_rad`, `to_hms`, `to_dms` and `normalize_pi`.
  The attribute accesses `utils.normalize_rad`, `utils.hms_to_rad`,
  `utils.rad_to_dms` and `utils.rad_to_hms` appearing in coordinates.py
  therefore raise `AttributeError` at run time; they are embedded as
  `Except.error (PyError.attributeError "<name>")` at the exact program
  point where CPython would raise (the callee expression of a call is
  evaluated before its arguments).
* `np.arcsin` / `np.arccos` outside [-1, 1] produce a domain fault
  (NaN in numpy, which ℝ cannot represent); they are embedded as
  `Except.error PyError.domainError` outside the domain.
-/

/-- Python exceptions raised by the embedded code, one constructor per
raise site. -/
inductive PyError where
  /-- `AttributeError`: access to a name that the `utils` module does not
  define (`normalize_rad`, `hms_to_rad`, `rad_to_dms`, `rad_to_hms`). -/
  | attributeError (name : String)
  /-- `ValueError` raised by `_validar_ctx` (coordinates.py line 327):
  `Falta parámetro '{key}' para el sistema {sistema}`. -/
  | missingParam (key : String) (sistema : String)
  /-- `ValueError` raised at coordinates.py line 156:
  `Sistema destino no soportado: {destino}`. -/
  | unsupportedSystem (tag : String)
  /-- `ValueError` raised by `_input_a_rad` (line 301):
  `Unidad de entrada desconocida: {unidad}`. -/
  | invalidUnitIn (unidad : String)
  /-- `ValueError` raised by `_rad_a_output` (line 321):
  `Unidad de salida desconocida: {unidad}`. -/
  | invalidUnitOut (unidad : String)
  /-- `KeyError` from a Python dict subscript `ctx[k]` on an absent key. -/
  | keyError (key : String)
  /-- Domain fault of an inverse trigonometric function outside [-1, 1]. -/
  | domainError
  /-- Shape/type fault of numpy operations on inputs whose shape does not
  match the unit tag (out of the modelled scope; no claim exercises it). -/
  | typeError

/-- A coordinate value at the public boundary: either a plain number or a
sexagesimal `(d, m, s)` / `(h, m, s)` triplet. -/
inductive Valor where
  | scalar (x : ℝ)
  | triplet (a b c : ℝ)

/-- The context dictionary `**kwargs` / `ctx`: an association list from
string keys to (radian) numbers, modelling a Python dict with unique keys. -/
abbrev Ctx : Type := List (String × ℝ)

/-- Dict lookup `ctx.get(k)` returning `none` when the key is absent. -/
def ctxGet (ctx : Ctx) (k : String) : Option ℝ :=
  (ctx.find? (fun p => p.1 == k)).map (fun p => p.2)

/-- Dict removal `ctx.pop(k)` (the removed value is read via `ctxGet`
before popping). -/
def ctxPop (ctx : Ctx) (k : String) : Ctx :=
  ctx.filter (fun p => p.1 != k)

/-- Dict assignment `ctx[k] = v` (replaces any previous binding of `k`). -/
def ctxSet (ctx : Ctx) (k : String) (v : ℝ) : Ctx :=
  ctxPop ctx k ++ [(k, v)]

/-- Dict subscript `ctx[k]`, raising `KeyError` when absent. -/
def ctxItem (ctx : Ctx) (k : String) : Except PyError ℝ :=
  match ctxGet ctx k with
  | some v => .ok v
  | none => .error (PyError.keyError k)

noncomputable section

/-- Python float modulo `x % y`: `x - y * ⌊x / y⌋` (result has the sign of
the divisor). -/
def pymod (x y : ℝ) : ℝ := x - y * ⌊x / y⌋

/-- Python `int()` applied to a float: truncation toward zero. -/
def pyint (x : ℝ) : ℤ := if 0 ≤ x then ⌊x⌋ else -⌊-x⌋

/-- `np.radians`: degrees to radians. -/
def radiansR (x : ℝ) : ℝ := x * Real.pi / 180

/-- `np.degrees`: radians to degrees. -/
def degreesR (x : ℝ) : ℝ := x * 180 / Real.pi

/-- `np.sign` on a real scalar. -/
def npsign (x : ℝ) : ℝ := if 0 < x then 1 else if x < 0 then -1 else 0

/-- `np.clip(x, lo, hi)`. -/
def npclip (x lo hi : ℝ) : ℝ := min (max x lo) hi

/-- `np.arcsin`, with a domain fault outside [-1, 1]. -/
def np_arcsin (x : ℝ) : Except PyError ℝ :=
  if x < -1 ∨ 1 < x then .error PyError.domainError else .ok (Real.arcsin x)

/-- `np.arccos`, with a domain fault outside [-1, 1]. -/
def np_arccos (x : ℝ) : Except PyError ℝ :=
  if x < -1 ∨ 1 < x then .error PyError.domainError else .ok (Real.arccos x)

/-- `np.arctan2(y, x)`. -/
def atan2 (y x : ℝ) : ℝ :=
  if 0 < x then Real.arctan (y / x)
  else if x < 0 then
    (if 0 ≤ y then Real.arctan (y / x) + Real.pi else Real.arctan (y / x) - Real.pi)
  else
    (if 0 < y then Real.pi / 2 else if y < 0 then -(Real.pi / 2) else 0)

/-- `utils.to_rad(d, m, s, sign)` (core/utils.py lines 4-7):
`deg = np.abs(d) + m/60 + s/3600`, then
`np.radians(deg) * np.sign(sign if sign != 0 else 1) * np.sign(d if d != 0 else 1)`. -/
def to_rad (d m s sign : ℝ) : ℝ :=
  let deg := |d| + m / 60 + s / 3600
  radiansR deg * npsign (if sign ≠ 0 then sign else 1) * npsign (if d ≠ 0 then d else 1)

/-- `utils.to_hms(rad)` (core/utils.py lines 9-18): normalizes into
[0, 2π) with `rad % (2*np.pi)`, then splits the decimal hours into
integer hours, integer minutes and fractional seconds. -/
def to_hms (rad : ℝ) : ℤ × ℤ × ℝ :=
  let rad := pymod rad (2 * Real.pi)
  let hours_dec := degreesR rad / 15
  let h := pyint hours_dec
  let rem := (hours_dec - h) * 60
  let m := pyint rem
  let s := (rem - m) * 60
  (h, m, s)

/-- `utils.to_dms(rad)` (core/utils.py lines 20-30): no normalization; the
sign of the raw degree value is split off, the absolute value is split into
integer degrees, integer minutes and fractional seconds, and the sign is
reattached to the degree component only. -/
def to_dms (rad : ℝ) : ℤ × ℤ × ℝ :=
  let deg_dec := degreesR rad
  let sign : ℤ := if 0 ≤ deg_dec then 1 else -1
  let deg_abs := |deg_dec|
  let d := pyint deg_abs
  let rem := (deg_abs - d) * 60
  let m := pyint rem
  let s := (rem - m) * 60
  (sign * d, m, s)

/-- Refinement-comparison definition following the spec's words for
sexagesimal decomposition (spec section 4.1): `Decomposition first
normalizes the input angle into [0, 2π) before taking its magnitude`,
then splits exactly as `to_dms` splits.  It is not translated from the
source; it exists only to be compared against the source's `to_dms`. -/
def to_dms_specNormalized (rad : ℝ) : ℤ × ℤ × ℝ :=
  to_dms (pymod rad (2 * Real.pi))

/-- `utils.normalize_pi(angle)` (core/utils.py lines 32-34): normalizes
into [-π, π]; this is the only normalizer `utils` defines. -/
def normalize_pi (angle : ℝ) : ℝ :=
  pymod (angle + Real.pi) (2 * Real.pi) - Real.pi

/-- `constants.EPSILON_J2000` (core/constants.py line 14). -/
def EPSILON_J2000 : ℝ := radiansR (23 + 26 / 60 + 21.448 / 3600)

/-- The `Sistema` string tags (coordinates.py lines 31-36). -/
def Sistema.HORIZONTAL : String := "horizontal"

def Sistema.HORARIO : String := "horario"

def Sistema.ECUATORIAL : String := "ecuatorial"

def Sistema.ECLIPTICO : String := "ecliptico"

def Sistema.GALACTICO : String := "galactico"

/-- The five recognized system tags. -/
def SISTEMAS : List String :=
  [Sistema.HORIZONTAL, Sistema.HORARIO, Sistema.ECUATORIAL,
   Sistema.ECLIPTICO, Sistema.GALACTICO]

/-- The `Unidad` string tags (coordinates.py lines 38-43). -/
def Unidad.RAD : String := "rad"

def Unidad.DEG : String := "deg"

def Unidad.HOUR : String := "hour"

def Unidad.DMS : String := "dms"

def Unidad.HMS : String := "hms"

/-- `_horizontal_to_horary(A, z, phi)` (coordinates.py lines 160-172).
The body computes `delta` through a clipped `arcsin` and `H` through
`arctan2`; the `return utils.normalize_rad(H), delta` line then raises
`AttributeError` because `utils` defines no `normalize_rad`. -/
def horizontal_to_horary (A z phi : ℝ) : Except PyError (ℝ × ℝ) := do
  let sin_delta := -Real.sin z * Real.cos A * Real.cos phi + Real.cos z * Real.sin phi
  let _delta ← np_arcsin (npclip sin_delta (-1) 1)
  let y := Real.sin z * Real.sin A
  let x := Real.sin z * Real.cos A * Real.sin phi + Real.cos z * Real.cos phi
  let _H := atan2 y x
  .error (PyError.attributeError "normalize_rad")

/-- `_horary_to_horizontal(H, delta, phi)` (coordinates.py lines 174-186).
Computes `z` through a clipped `arccos` and `A` through `arctan2`; the
`return utils.normalize_rad(A), z` line raises `AttributeError`. -/
def horary_to_horizontal (H delta phi : ℝ) : Except PyError (ℝ × ℝ) := do
  let cos_z := Real.cos delta * Real.cos H * Real.cos phi + Real.sin delta * Real.sin phi
  let _z ← np_arccos (npclip cos_z (-1) 1)
  let num := Real.cos delta * Real.sin H
  let den := Real.cos delta * Real.cos H * Real.sin phi - Real.sin delta * Real.cos phi
  let _A := atan2 num den
  .error (PyError.attributeError "normalize_rad")

/-- `_equatorial_to_ecliptic(alpha, delta, eps)` (coordinates.py lines
188-199); the `return utils.normalize_rad(lamb), beta` line raises
`AttributeError`. -/
def equatorial_to_ecliptic (alpha delta eps : ℝ) : Except PyError (ℝ × ℝ) := do
  let sin_b := -Real.cos delta * Real.sin alpha * Real.sin eps + Real.sin delta * Real.cos eps
  let _beta ← np_arcsin (npclip sin_b (-1) 1)
  let y := Real.cos delta * Real.sin alpha * Real.cos eps + Real.sin delta * Real.sin eps
  let x := Real.cos delta * Real.cos alpha
  let _lamb := atan2 y x
  .error (PyError.attributeError "normalize_rad")

/-- `_ecliptic_to_equatorial(lamb, beta, eps)` (coordinates.py lines
201-212); the `return utils.normalize_rad(alpha), delta` line raises
`AttributeError`. -/
def ecliptic_to_equatorial (lamb beta eps : ℝ) : Except PyError (ℝ × ℝ) := do
  let sin_d := Real.cos beta * Real.sin lamb * Real.sin eps + Real.sin beta * Real.cos eps
  let _delta ← np_arcsin (npclip sin_d (-1) 1)
  let y := Real.cos beta * Real.sin lamb * Real.cos eps - Real.sin beta * Real.sin eps
  let x := Real.cos beta * Real.cos lamb
  let _alpha := atan2 y x
  .error (PyError.attributeError "normalize_rad")

/-- `_equatorial_to_galactic(alpha, delta)` (coordinates.py lines 214-230),
with the fixed J2000 pole constants; the `return utils.normalize_rad(l), b`
line raises `AttributeError`. -/
def equatorial_to_galactic (alpha delta : ℝ) : Except PyError (ℝ × ℝ) := do
  let ap := radiansR 192.85948
  let dp := radiansR 27.12825
  let lnode := radiansR 32.93192
  let diff := alpha - ap
  let sin_b := Real.sin delta * Real.sin dp + Real.cos delta * Real.cos dp * Real.cos diff
  let _b ← np_arcsin (npclip sin_b (-1) 1)
  let y := Real.cos delta * Real.sin diff
  let x := Real.sin delta * Real.cos dp - Real.cos delta * Real.sin dp * Real.cos diff
  let _l := lnode - atan2 y x
  .error (PyError.attributeError "normalize_rad")

/-- `_galactic_to_equatorial(l, b)` (coordinates.py lines 232-252).  The
body recomputes `sin_d` twice (the source carries a duplicated line with a
sign-uncertainty comment); `delta` goes through a clipped `arcsin`, then
the `return utils.normalize_rad(alpha), delta` line raises
`AttributeError`. -/
def galactic_to_equatorial (l b : ℝ) : Except PyError (ℝ × ℝ) := do
  let ap := radiansR 192.85948
  let dp := radiansR 27.12825
  let lnode := radiansR 32.93192
  let y := Real.cos b * Real.sin (l - lnode)
  let x := Real.sin b * Real.cos dp - Real.cos b * Real.sin dp * Real.cos (l - lnode)
  let sin_d := Real.sin b * Real.sin dp + Real.cos b * Real.cos dp * Real.cos (l - lnode)
  let _delta ← np_arcsin (npclip sin_d (-1) 1)
  let _alpha := atan2 y x + ap
  .error (PyError.attributeError "normalize_rad")

/-- `_validar_ctx(ctx, keys, sistema)` (coordinates.py lines 323-327):
raises `ValueError` naming the first absent key and the system. -/
def validar_ctx (ctx : Ctx) (keys : List String) (sistema : String) : Except PyError Unit :=
  match keys with
  | [] => .ok ()
  | k :: rest =>
    if (ctxGet ctx k).isSome then validar_ctx ctx rest sistema
    else .error (PyError.missingParam k sistema)

/-- `_nucleo_transformacion(c1, c2, origen, destino, ctx)` (coordinates.py
lines 114-156).  Hub-and-spoke engine: identity when `origen == destino`;
otherwise a pivot `origen -> (alpha, delta) -> destino`.  `alpha, delta`
are initialized to `0.0, 0.0` (line 120) and keep that value when no
origin branch matches.  The `horario` leg (line 126) and the two
destination legs at lines 143 and 147 access `utils.normalize_rad`, which
raises `AttributeError` (CPython evaluates the callee before the
arguments, so the `ctx` subscripts on those lines are never reached). -/
def nucleo_transformacion (c1 c2 : ℝ) (origen destino : String) (ctx : Ctx) :
    Except PyError (ℝ × ℝ) :=
  if origen = destino then .ok (c1, c2)
  else do
    let hub ←
      (if origen = Sistema.ECUATORIAL then
        (.ok (c1, c2) : Except PyError (ℝ × ℝ))
      else if origen = Sistema.HORARIO then do
        let _ ← validar_ctx ctx ["TS"] origen
        (.error (PyError.attributeError "normalize_rad") : Except PyError (ℝ × ℝ))
      else if origen = Sistema.HORIZONTAL then do
        let _ ← validar_ctx ctx ["phi", "TS"] origen
        let phi ← ctxItem ctx "phi"
        let _Hd ← horizontal_to_horary c1 c2 phi
        (.error (PyError.attributeError "normalize_rad") : Except PyError (ℝ × ℝ))
      else if origen = Sistema.ECLIPTICO then
        ecliptic_to_equatorial c1 c2 ((ctxGet ctx "epsilon").getD EPSILON_J2000)
      else if origen = Sistema.GALACTICO then
        galactic_to_equatorial c1 c2
      else
        (.ok (0, 0) : Except PyError (ℝ × ℝ)))
    let alpha := hub.1
    let delta := hub.2
    if destino = Sistema.ECUATORIAL then .ok (alpha, delta)
    else if destino = Sistema.HORARIO then do
      let _ ← validar_ctx ctx ["TS"] destino
      (.error (PyError.attributeError "normalize_rad") : Except PyError (ℝ × ℝ))
    else if destino = Sistema.HORIZONTAL then do
      let _ ← validar_ctx ctx ["phi", "TS"] destino
      (.error (PyError.attributeError "normalize_rad") : Except PyError (ℝ × ℝ))
    else if destino = Sistema.ECLIPTICO then
      equatorial_to_ecliptic alpha delta ((ctxGet ctx "epsilon").getD EPSILON_J2000)
    else if destino = Sistema.GALACTICO then
      equatorial_to_galactic alpha delta
    else
      .error (PyError.unsupportedSystem destino)

/-- `_normalizar_contexto(kwargs)` (coordinates.py lines 258-278):
rewrites the alternate-unit keys `phi_deg`, `TS_h`, `TS_deg`,
`epsilon_deg` to their radian canonical keys. -/
def normalizar_contexto (kwargs : Ctx) : Ctx :=
  let ctx := kwargs
  let ctx :=
    match ctxGet ctx "phi_deg" with
    | some v => ctxSet (ctxPop ctx "phi_deg") "phi" (radiansR v)
    | none => ctx
  let ctx :=
    match ctxGet ctx "TS_h" with
    | some v => ctxSet (ctxPop ctx "TS_h") "TS" (radiansR (v * 15))
    | none =>
      match ctxGet ctx "TS_deg" with
      | some v => ctxSet (ctxPop ctx "TS_deg") "TS" (radiansR v)
      | none => ctx
  match ctxGet ctx "epsilon_deg" with
  | some v => ctxSet (ctxPop ctx "epsilon_deg") "epsilon" (radiansR v)
  | none => ctx

/-- `_input_a_rad(val, unidad, es_tiempo)` (coordinates.py lines 280-301).
The `hms` branch calls `utils.hms_to_rad`, which `utils` does not define,
raising `AttributeError`.  A triplet under a scalar unit or a scalar under
a sexagesimal unit is a shape fault outside the modelled scope
(`PyError.typeError`); no claim exercises those combinations. -/
def input_a_rad (val : Valor) (unidad : String) (es_tiempo : Bool) : Except PyError ℝ :=
  if unidad = Unidad.RAD then
    match val with
    | .scalar x => .ok x
    | .triplet _ _ _ => .error PyError.typeError
  else if unidad = Unidad.DEG then
    match val with
    | .scalar x => .ok (radiansR x)
    | .triplet _ _ _ => .error PyError.typeError
  else if unidad = Unidad.HOUR then
    match val with
    | .scalar x => .ok (radiansR (x * 15))
    | .triplet _ _ _ => .error PyError.typeError
  else if unidad = Unidad.DMS then
    match val with
    | .triplet a b c => .ok (to_rad a b c 1)
    | .scalar _ => .error PyError.typeError
  else if unidad = Unidad.HMS then
    match val with
    | .triplet _ _ _ => .error (PyError.attributeError "hms_to_rad")
    | .scalar _ => .error PyError.typeError
  else
    .error (PyError.invalidUnitIn unidad)

/-- `_rad_a_output(val_rad, unidad, es_tiempo)` (coordinates.py lines
303-321).  The `dms` and `hms` branches call `utils.rad_to_dms` and
`utils.rad_to_hms`, which `utils` does not define (it defines `to_dms`
and `to_hms`), raising `AttributeError`. -/
def rad_a_output (val_rad : ℝ) (unidad : String) (es_tiempo : Bool) : Except PyError Valor :=
  if unidad = Unidad.RAD then .ok (.scalar val_rad)
  else if unidad = Unidad.DEG then .ok (.scalar (degreesR val_rad))
  else if unidad = Unidad.HOUR then .ok (.scalar (pymod (degreesR val_rad / 15) 24))
  else if unidad = Unidad.DMS then .error (PyError.attributeError "rad_to_dms")
  else if unidad = Unidad.HMS then .error (PyError.attributeError "rad_to_hms")
  else .error (PyError.invalidUnitOut unidad)

/-- `transformar(c1, c2, origen, destino, unidad_in, unidad_out, **kwargs)`
(coordinates.py lines 49-108): the public entry point.  Resolves the
context, converts both inputs to radians, applies the Horizontal
altitude-to-zenith-distance complement on ingress, runs the hub engine,
applies the inverse complement on egress, and formats both outputs. -/
def transformar (c1 c2 : Valor) (origen destino unidad_in unidad_out : String)
    (kwargs : Ctx) : Except PyError (Valor × Valor) := do
  let ctx := normalizar_contexto kwargs
  let val1_rad ← input_a_rad c1 unidad_in
    (origen == Sistema.HORARIO || origen == Sistema.ECUATORIAL)
  let val2_rad ← input_a_rad c2 unidad_in false
  let val2_rad := if origen = Sistema.HORIZONTAL then Real.pi / 2 - val2_rad else val2_rad
  let out ← nucleo_transformacion val1_rad val2_rad origen destino ctx
  let out1_rad := out.1
  let out2_rad := if destino = Sistema.HORIZONTAL then Real.pi / 2 - out.2 else out.2
  let es_tiempo_salida : Bool :=
    destino == Sistema.HORARIO || destino == Sistema.ECUATORIAL
  let res1 ← rad_a_output out1_rad unidad_out es_tiempo_salida
  let res2 ← rad_a_output out2_rad unidad_out false
  .ok (res1, res2)

end

-- ============================================================================
-- Helper lemmas
-- ============================================================================

theorem neg_one_le_npclip (x : ℝ) : -1 ≤ npclip x (-1) 1 :=
  le_min (le_max_right x (-1)) (by norm_num)

theorem npclip_le_one (x : ℝ) : npclip x (-1) 1 ≤ 1 := min_le_right _ _

/-- A clipped argument never trips the `arcsin` domain check. -/
theorem np_arcsin_clip (x : ℝ) :
    np_arcsin (npclip x (-1) 1) = .ok (Real.arcsin (npclip x (-1) 1)) := by
  unfold np_arcsin
  rw [if_neg]
  push_neg
  exact ⟨neg_one_le_npclip x, npclip_le_one x⟩

/-- A clipped argument never trips the `arccos` domain check. -/
theorem np_arccos_clip (x : ℝ) :
    np_arccos (npclip x (-1) 1) = .ok (Real.arccos (npclip x (-1) 1)) := by
  unfold np_arccos
  rw [if_neg]
  push_neg
  exact ⟨neg_one_le_npclip x, npclip_le_one x⟩

theorem except_bind_ok {α β : Type} (a : α) (f : α → Except PyError β) :
    (Except.ok a >>= f : Except PyError β) = f a := rfl

theorem except_bind_error {α β : Type} (e : PyError) (f : α → Except PyError β) :
    (Except.error e >>= f : Except PyError β) = .error e := rfl

theorem horizontal_to_horary_eq (A z phi : ℝ) :
    horizontal_to_horary A z phi = .error (PyError.attributeError "normalize_rad") := by
  simp only [horizontal_to_horary, np_arcsin_clip, except_bind_ok]

theorem horary_to_horizontal_eq (H delta phi : ℝ) :
    horary_to_horizontal H delta phi = .error (PyError.attributeError "normalize_rad") := by
  simp only [horary_to_horizontal, np_arccos_clip, except_bind_ok]

theorem equatorial_to_ecliptic_eq (alpha delta eps : ℝ) :
    equatorial_to_ecliptic alpha delta eps = .error (PyError.attributeError "normalize_rad") := by
  simp only [equatorial_to_ecliptic, np_arcsin_clip, except_bind_ok]

theorem ecliptic_to_equatorial_eq (lamb beta eps : ℝ) :
    ecliptic_to_equatorial lamb beta eps = .error (PyError.attributeError "normalize_rad") := by
  simp only [ecliptic_to_equatorial, np_arcsin_clip, except_bind_ok]

theorem equatorial_to_galactic_eq (alpha delta : ℝ) :
    equatorial_to_galactic alpha delta = .error (PyError.attributeError "normalize_rad") := by
  simp only [equatorial_to_galactic, np_arcsin_clip, except_bind_ok]

theorem galactic_to_equatorial_eq (l b : ℝ) :
    galactic_to_equatorial l b = .error (PyError.attributeError "normalize_rad") := by
  simp only [galactic_to_equatorial, np_arcsin_clip, except_bind_ok]

theorem pymod_eq_fract (x y : ℝ) (hy : y ≠ 0) : pymod x y = y * Int.fract (x / y) := by
  unfold pymod Int.fract
  field_simp

theorem pymod_nonneg (x y : ℝ) (hy : 0 < y) : 0 ≤ pymod x y := by
  rw [pymod_eq_fract x y hy.ne']
  exact mul_nonneg hy.le (Int.fract_nonneg _)

theorem pymod_lt (x y : ℝ) (hy : 0 < y) : pymod x y < y := by
  rw [pymod_eq_fract x y hy.ne']
  calc y * Int.fract (x / y) < y * 1 := by
        exact mul_lt_mul_of_pos_left (Int.fract_lt_one _) hy
    _ = y := mul_one y

/-- Normalizing an already-normalized angle is the identity. -/
theorem pymod_idem (x y : ℝ) (hy : 0 < y) : pymod (pymod x y) y = pymod x y := by
  have h0 := pymod_nonneg x y hy
  have h1 := pymod_lt x y hy
  have hfl : ⌊pymod x y / y⌋ = 0 := by
    rw [Int.floor_eq_zero_iff]
    constructor
    · exact div_nonneg h0 hy.le
    · rw [div_lt_one hy]
      exact h1
  nth_rewrite 1 [pymod]
  rw [hfl]
  push_cast
  ring

theorem degreesR_neg_pi_quarter : degreesR (-(Real.pi/4)) = -45 := by
  unfold degreesR
  field_simp
  ring

-- ============================================================================
-- Claim theorems
-- ============================================================================

/-- Claim C1: the spec's round-trip property (transforming S1 to S2 and back
reproduces the input) cannot hold on the code: already the first
cross-system call of the composition fails with `AttributeError`, because
every pivot leg of `_nucleo_transformacion` calls `utils.normalize_rad`
and `utils` defines no such function.  Evaluated here at the concrete
failing input `transformar(1, 1/2, ecuatorial, horario, rad, rad, TS=2)`. -/
theorem c1_roundtrip_first_call_fails :
    transformar (Valor.scalar 1) (Valor.scalar (1/2)) Sistema.ECUATORIAL Sistema.HORARIO
      Unidad.RAD Unidad.RAD [("TS", 2)] = .error (PyError.attributeError "normalize_rad") := by
  simp [transformar, normalizar_contexto, ctxGet, ctxSet, ctxPop, ctxItem, input_a_rad,
        nucleo_transformacion, validar_ctx, rad_a_output,
        Sistema.ECUATORIAL, Sistema.HORARIO, Sistema.HORIZONTAL, Sistema.ECLIPTICO,
        Sistema.GALACTICO, Unidad.RAD, Unidad.DEG, Unidad.HOUR, Unidad.DMS, Unidad.HMS,
        except_bind_ok, except_bind_error]

/-- Claim C2: for every pair of distinct recognized systems, radian units
on both sides, and any context whose resolved form supplies both `phi`
and `TS`, the public entry point `transformar` fails with
`AttributeError` on the undefined name `utils.normalize_rad` instead of
returning a result. -/
theorem c2_cross_system_always_fails (o d : String) (ho : o ∈ SISTEMAS) (hd : d ∈ SISTEMAS)
    (hne : o ≠ d) (c1 c2 p t : ℝ) (kwargs : Ctx)
    (hphi : ctxGet (normalizar_contexto kwargs) "phi" = some p)
    (hts : ctxGet (normalizar_contexto kwargs) "TS" = some t) :
    transformar (Valor.scalar c1) (Valor.scalar c2) o d Unidad.RAD Unidad.RAD kwargs
      = .error (PyError.attributeError "normalize_rad") := by
  simp only [SISTEMAS, Sistema.HORIZONTAL, Sistema.HORARIO, Sistema.ECUATORIAL,
             Sistema.ECLIPTICO, Sistema.GALACTICO, List.mem_cons,
             List.not_mem_nil, or_false] at ho hd
  rcases ho with rfl|rfl|rfl|rfl|rfl <;> rcases hd with rfl|rfl|rfl|rfl|rfl <;>
    first
      | exact absurd rfl hne
      | simp [transformar, input_a_rad, nucleo_transformacion, validar_ctx, ctxItem,
              hphi, hts, horizontal_to_horary_eq, horary_to_horizontal_eq,
              equatorial_to_ecliptic_eq, ecliptic_to_equatorial_eq,
              equatorial_to_galactic_eq, galactic_to_equatorial_eq,
              Sistema.HORIZONTAL, Sistema.HORARIO, Sistema.ECUATORIAL,
              Sistema.ECLIPTICO, Sistema.GALACTICO,
              Unidad.RAD, Unidad.DEG, Unidad.HOUR, Unidad.DMS, Unidad.HMS,
              except_bind_ok, except_bind_error]

/-- Claim C2, witness: the theorem instantiated at
horizontal to galactic with `phi = 1`, `TS = 2`. -/
theorem c2_witness :
    transformar (Valor.scalar 1) (Valor.scalar (1/2)) Sistema.HORIZONTAL Sistema.GALACTICO
      Unidad.RAD Unidad.RAD [("phi", 1), ("TS", 2)]
      = .error (PyError.attributeError "normalize_rad") :=
  c2_cross_system_always_fails Sistema.HORIZONTAL Sistema.GALACTICO
    (by simp [SISTEMAS]) (by simp [SISTEMAS])
    (by simp [Sistema.HORIZONTAL, Sistema.GALACTICO])
    1 (1/2) 1 2 [("phi", 1), ("TS", 2)]
    (by simp [normalizar_contexto, ctxGet, ctxSet, ctxPop])
    (by simp [normalizar_contexto, ctxGet, ctxSet, ctxPop])

/-- Claim C3: the identity claim (same origin and destination system, any
unit pair, coordinates returned re-expressed with no numeric change)
fails on the code for sexagesimal output units: with origin = destination
= ecuatorial, radian input and `dms` output, `transformar` raises
`AttributeError` because `_rad_a_output` calls `utils.rad_to_dms`, which
`utils` does not define (it defines `to_dms`). -/
theorem c3_identity_dms_egress_fails :
    transformar (Valor.scalar 1) (Valor.scalar (1/2)) Sistema.ECUATORIAL Sistema.ECUATORIAL
      Unidad.RAD Unidad.DMS [] = .error (PyError.attributeError "rad_to_dms") := by
  simp [transformar, normalizar_contexto, ctxGet, ctxSet, ctxPop, ctxItem, input_a_rad,
        nucleo_transformacion, validar_ctx, rad_a_output,
        Sistema.ECUATORIAL, Sistema.HORARIO, Sistema.HORIZONTAL, Sistema.ECLIPTICO,
        Sistema.GALACTICO, Unidad.RAD, Unidad.DEG, Unidad.HOUR, Unidad.DMS, Unidad.HMS,
        except_bind_ok, except_bind_error]

/-- Claim C4: (1) converting horario to ecuatorial with a context whose
resolved form omits `TS` fails with the missing-parameter error naming
the key `TS` and the system `horario`; (2) legs whose endpoints are all
among ecuatorial, ecliptico and galactico never produce a
missing-parameter error, for any context; (3) for recognized system
pairs with no horizontal endpoint, a missing-parameter error about `phi`
is impossible. -/
theorem c4_context_requirements :
    (∀ (c1 c2 : ℝ) (kwargs : Ctx),
       ctxGet (normalizar_contexto kwargs) "TS" = none →
       transformar (Valor.scalar c1) (Valor.scalar c2) Sistema.HORARIO Sistema.ECUATORIAL
         Unidad.RAD Unidad.RAD kwargs = .error (PyError.missingParam "TS" Sistema.HORARIO)) ∧
    (∀ (c1 c2 : ℝ) (ctx : Ctx) (o d : String),
       (o = Sistema.ECUATORIAL ∨ o = Sistema.ECLIPTICO ∨ o = Sistema.GALACTICO) →
       (d = Sistema.ECUATORIAL ∨ d = Sistema.ECLIPTICO ∨ d = Sistema.GALACTICO) →
       ∀ k s, nucleo_transformacion c1 c2 o d ctx ≠ .error (PyError.missingParam k s)) ∧
    (∀ (c1 c2 : ℝ) (ctx : Ctx) (o d : String),
       o ∈ SISTEMAS → d ∈ SISTEMAS → o ≠ Sistema.HORIZONTAL → d ≠ Sistema.HORIZONTAL →
       ∀ s, nucleo_transformacion c1 c2 o d ctx ≠ .error (PyError.missingParam "phi" s)) := by
  refine ⟨?_, ?_, ?_⟩
  · intro c1 c2 kwargs hts
    simp [transformar, input_a_rad, nucleo_transformacion, validar_ctx, hts,
          Sistema.HORIZONTAL, Sistema.HORARIO, Sistema.ECUATORIAL,
          Sistema.ECLIPTICO, Sistema.GALACTICO, Unidad.RAD,
          except_bind_ok, except_bind_error]
  · intro c1 c2 ctx o d ho hd k s
    rcases ho with rfl|rfl|rfl <;> rcases hd with rfl|rfl|rfl <;>
      simp [nucleo_transformacion, validar_ctx, ctxItem,
            equatorial_to_ecliptic_eq, ecliptic_to_equatorial_eq,
            equatorial_to_galactic_eq, galactic_to_equatorial_eq,
            Sistema.HORIZONTAL, Sistema.HORARIO, Sistema.ECUATORIAL,
            Sistema.ECLIPTICO, Sistema.GALACTICO,
            except_bind_ok, except_bind_error]
  · intro c1 c2 ctx o d ho hd hno hnd s
    simp only [SISTEMAS, Sistema.HORIZONTAL, Sistema.HORARIO, Sistema.ECUATORIAL,
               Sistema.ECLIPTICO, Sistema.GALACTICO, List.mem_cons,
               List.not_mem_nil, or_false] at ho hd
    rcases ho with rfl|rfl|rfl|rfl|rfl <;> rcases hd with rfl|rfl|rfl|rfl|rfl <;>
      first
        | exact absurd rfl hno
        | exact absurd rfl hnd
        | (rcases hts : ctxGet ctx "TS" with _|v <;>
           simp [nucleo_transformacion, validar_ctx, ctxItem, hts,
                 horizontal_to_horary_eq, horary_to_horizontal_eq,
                 equatorial_to_ecliptic_eq, ecliptic_to_equatorial_eq,
                 equatorial_to_galactic_eq, galactic_to_equatorial_eq,
                 Sistema.HORIZONTAL, Sistema.HORARIO, Sistema.ECUATORIAL,
                 Sistema.ECLIPTICO, Sistema.GALACTICO,
                 except_bind_ok, except_bind_error])

/-- Claim C4, witness: horario to ecuatorial with an empty context fails
naming `TS` and `horario`. -/
theorem c4_witness :
    transformar (Valor.scalar 1) (Valor.scalar 2) Sistema.HORARIO Sistema.ECUATORIAL
      Unidad.RAD Unidad.RAD [] = .error (PyError.missingParam "TS" Sistema.HORARIO) :=
  c4_context_requirements.1 1 2 [] rfl

/-- Claim C5: an origin tag outside the five recognized systems does NOT
make the hub router fail: `_nucleo_transformacion` validates only the
destination tag, so an unknown origin falls through the branch chain and
the router silently returns a result computed from the defaulted hub
initialization `alpha, delta = 0.0, 0.0`; and when the two unknown tags
are equal the router returns the input unchanged. -/
theorem c5_unknown_origin_silently_ok :
    nucleo_transformacion 1 (1/2) "foo" Sistema.ECUATORIAL [] = .ok (0, 0) ∧
    nucleo_transformacion 1 (1/2) "foo" "foo" [] = .ok (1, 1/2) := by
  constructor <;>
  simp [nucleo_transformacion, validar_ctx, ctxGet, ctxItem,
        Sistema.ECUATORIAL, Sistema.HORARIO, Sistema.HORIZONTAL, Sistema.ECLIPTICO,
        Sistema.GALACTICO, except_bind_ok, except_bind_error]

/-- Claim C6: every inverse-sine and inverse-cosine argument in the
transform library is clamped into [-1, 1] first, so no domain fault is
ever raised, for all real inputs (the only error these functions produce
is the unrelated `AttributeError` of their return line); and an argument
pushed beyond the domain comes back as exactly the clamped boundary value
(`arcsin` gives pi/2 at or above 1, `arccos` gives pi at or below -1). -/
theorem c6_clamping :
    (∀ A z phi : ℝ,
       horizontal_to_horary A z phi = .error (PyError.attributeError "normalize_rad")) ∧
    (∀ H delta phi : ℝ,
       horary_to_horizontal H delta phi = .error (PyError.attributeError "normalize_rad")) ∧
    (∀ alpha delta : ℝ,
       equatorial_to_galactic alpha delta = .error (PyError.attributeError "normalize_rad")) ∧
    (∀ x : ℝ, 1 ≤ x → np_arcsin (npclip x (-1) 1) = .ok (Real.pi / 2)) ∧
    (∀ x : ℝ, x ≤ -1 → np_arccos (npclip x (-1) 1) = .ok Real.pi) := by
  refine ⟨horizontal_to_horary_eq, horary_to_horizontal_eq, equatorial_to_galactic_eq, ?_, ?_⟩
  · intro x hx
    have h1 : npclip x (-1) 1 = 1 := by
      unfold npclip
      rw [max_eq_left (by linarith), min_eq_right hx]
    rw [h1, np_arcsin]
    rw [if_neg (by norm_num)]
    rw [Real.arcsin_one]
  · intro x hx
    have h1 : npclip x (-1) 1 = -1 := by
      unfold npclip
      rw [max_eq_right hx, min_eq_left (by norm_num)]
    rw [h1, np_arccos]
    rw [if_neg (by norm_num)]
    rw [Real.arccos_neg_one]

/-- Claim C6, witness: the theorem instantiated at concrete inputs,
including an `arcsin` argument of 2 and an `arccos` argument of -3. -/
theorem c6_clamping_witness :
    horizontal_to_horary 1 1 1 = .error (PyError.attributeError "normalize_rad") ∧
    np_arcsin (npclip 2 (-1) 1) = .ok (Real.pi / 2) ∧
    np_arccos (npclip (-3) (-1) 1) = .ok Real.pi :=
  ⟨c6_clamping.1 1 1 1, c6_clamping.2.2.2.1 2 (by norm_num),
   c6_clamping.2.2.2.2 (-3) (by norm_num)⟩

/-- Claim C7: no transform-library function ever returns a normalized
longitude (or anything at all): each one raises `AttributeError` at its
return line because the [0, 2pi) normalizer `utils.normalize_rad` does
not exist.  Evaluated at concrete inputs for the three functions not
already evaluated under claim C6. -/
theorem c7_no_normalized_return :
    ecliptic_to_equatorial 1 (1/2) (3/10) = .error (PyError.attributeError "normalize_rad") ∧
    equatorial_to_ecliptic 1 (1/2) (3/10) = .error (PyError.attributeError "normalize_rad") ∧
    galactic_to_equatorial 1 (1/2) = .error (PyError.attributeError "normalize_rad") :=
  ⟨ecliptic_to_equatorial_eq 1 (1/2) (3/10),
   equatorial_to_ecliptic_eq 1 (1/2) (3/10),
   galactic_to_equatorial_eq 1 (1/2)⟩

/-- Claim C8 counterexample: DMS decomposition does NOT first normalize
into [0, 2pi): `to_dms` at -pi/4 yields (-45, 0, 0), while the
spec-worded normalize-first decomposition yields (315, 0, 0). -/
theorem c8_counterexample :
    to_dms (-(Real.pi/4)) = (-45, 0, 0) ∧
    to_dms_specNormalized (-(Real.pi/4)) = (315, 0, 0) ∧
    to_dms (-(Real.pi/4)) ≠ to_dms_specNormalized (-(Real.pi/4)) := by
  have h1 : to_dms (-(Real.pi/4)) = (-45, 0, 0) := by
    simp only [to_dms, degreesR_neg_pi_quarter]
    norm_num [pyint]
  have hm : pymod (-(Real.pi/4)) (2*Real.pi) = 7*Real.pi/4 := by
    unfold pymod
    have hq : (-(Real.pi/4)) / (2*Real.pi) = -(1/8) := by
      rw [div_eq_iff (by positivity : (2:ℝ)*Real.pi ≠ 0)]
      ring
    rw [hq, show ⌊(-(1/8) : ℝ)⌋ = -1 by norm_num]
    push_cast
    ring
  have hdeg : degreesR (7*Real.pi/4) = 315 := by
    unfold degreesR
    field_simp
    ring
  have h2 : to_dms_specNormalized (-(Real.pi/4)) = (315, 0, 0) := by
    unfold to_dms_specNormalized
    rw [hm]
    simp only [to_dms, hdeg]
    norm_num [pyint]
  refine ⟨h1, h2, ?_⟩
  rw [h1, h2]
  simp

/-- Claim C8 amended: only the HMS decomposition normalizes its input into
[0, 2pi) first (so it is invariant under prior normalization); the DMS
decomposition skips normalization and instead splits the absolute degree
value of the raw angle, reattaching the raw sign to the degree component
(so a nonnegative angle and its negation decompose to mirrored triplets). -/
theorem c8_amended :
    (∀ θ : ℝ, to_hms (pymod θ (2*Real.pi)) = to_hms θ) ∧
    (∀ θ : ℝ, 0 ≤ θ →
       to_dms (-θ) = (-(to_dms θ).1, (to_dms θ).2.1, (to_dms θ).2.2)) := by
  constructor
  · intro θ
    have h2π : (0:ℝ) < 2*Real.pi := by positivity
    simp only [to_hms, pymod_idem θ (2*Real.pi) h2π]
  · intro θ hθ
    have hx : 0 ≤ degreesR θ := by
      unfold degreesR
      positivity
    have hneg : degreesR (-θ) = -(degreesR θ) := by
      unfold degreesR
      ring
    simp only [to_dms, hneg, abs_neg, abs_of_nonneg hx]
    rcases eq_or_lt_of_le hx with h|h
    · rw [← h]
      norm_num [pyint]
    · rw [if_pos hx, if_neg (by linarith : ¬ (0:ℝ) ≤ -(degreesR θ))]
      norm_num

/-- Claim C8 amended, witness: the theorem instantiated at 5 rad and at
pi/4. -/
theorem c8_amended_witness :
    to_hms (pymod 5 (2*Real.pi)) = to_hms 5 ∧
    to_dms (-(Real.pi/4))
      = (-(to_dms (Real.pi/4)).1, (to_dms (Real.pi/4)).2.1, (to_dms (Real.pi/4)).2.2) :=
  ⟨c8_amended.1 5, c8_amended.2 (Real.pi/4) (by positivity)⟩

/-- Claim C9: the taxonomy claim (every error of `transformar` is one of
InvalidUnit, UnsupportedSystem, MissingContextParameter, detected before
any partial coordinate computation) fails on the code: converting
ecliptico to ecuatorial with a complete context raises `AttributeError`
on `utils.normalize_rad`, an error outside the taxonomy, and only after
`_ecliptic_to_equatorial` has already computed the declination. -/
theorem c9_taxonomy_violation :
    transformar (Valor.scalar 1) (Valor.scalar (1/2)) Sistema.ECLIPTICO Sistema.ECUATORIAL
      Unidad.RAD Unidad.RAD [] = .error (PyError.attributeError "normalize_rad") := by
  simp [transformar, normalizar_contexto, ctxGet, ctxSet, ctxPop, ctxItem, input_a_rad,
        nucleo_transformacion, validar_ctx, rad_a_output, ecliptic_to_equatorial_eq,
        Sistema.ECUATORIAL, Sistema.HORARIO, Sistema.HORIZONTAL, Sistema.ECLIPTICO,
        Sistema.GALACTICO, Unidad.RAD, Unidad.DEG, Unidad.HOUR, Unidad.DMS, Unidad.HMS,
        except_bind_ok, except_bind_error]

/-- Claim C10 counterexample: a DMS triplet with zero first component CAN
produce a negative radian value through the public entry point: minutes
are not taken in absolute value, so (0, -30, 0) ingresses to -pi/360 < 0. -/
theorem c10_counterexample :
    transformar (Valor.triplet 0 (-30) 0) (Valor.triplet 0 0 0) Sistema.ECLIPTICO
      Sistema.ECLIPTICO Unidad.DMS Unidad.RAD []
      = .ok (Valor.scalar (-(Real.pi/360)), Valor.scalar 0) ∧
    -(Real.pi/360) < (0:ℝ) := by
  constructor
  · simp [transformar, normalizar_contexto, ctxGet, input_a_rad, nucleo_transformacion,
          rad_a_output, to_rad, npsign, radiansR,
          Sistema.HORIZONTAL, Sistema.HORARIO, Sistema.ECUATORIAL,
          Sistema.ECLIPTICO, Sistema.GALACTICO,
          Unidad.RAD, Unidad.DEG, Unidad.HOUR, Unidad.DMS, Unidad.HMS,
          except_bind_ok, except_bind_error]
    ring
  · rw [neg_lt_zero]
    positivity

/-- Claim C10 amended: for a DMS triplet (0, m, s) with nonnegative m and
s, ingress through the public entry point produces the nonnegative value
radians(m/60 + s/3600) — the sign factor of `to_rad` is +1 when the first
component is 0 — while negative minute or second values can still produce
a negative angle, and HMS ingress never produces a value at all because
`utils.hms_to_rad` does not exist. -/
theorem c10_amended :
    (∀ m s : ℝ, 0 ≤ m → 0 ≤ s →
       transformar (Valor.triplet 0 m s) (Valor.triplet 0 0 0) Sistema.ECLIPTICO
         Sistema.ECLIPTICO Unidad.DMS Unidad.RAD []
         = .ok (Valor.scalar (radiansR (m/60 + s/3600)), Valor.scalar 0) ∧
       0 ≤ radiansR (m/60 + s/3600)) ∧
    (∀ a b c : ℝ,
       transformar (Valor.triplet a b c) (Valor.triplet 0 0 0) Sistema.ECUATORIAL
         Sistema.ECUATORIAL Unidad.HMS Unidad.RAD []
         = .error (PyError.attributeError "hms_to_rad")) := by
  constructor
  · intro m s _hm _hs
    constructor
    · simp [transformar, normalizar_contexto, ctxGet, input_a_rad, nucleo_transformacion,
            rad_a_output, to_rad, npsign, radiansR,
            Sistema.HORIZONTAL, Sistema.HORARIO, Sistema.ECUATORIAL,
            Sistema.ECLIPTICO, Sistema.GALACTICO,
            Unidad.RAD, Unidad.DEG, Unidad.HOUR, Unidad.DMS, Unidad.HMS,
            except_bind_ok, except_bind_error]
    · unfold radiansR
      positivity
  · intro a b c
    simp [transformar, normalizar_contexto, ctxGet, input_a_rad,
          Sistema.HORIZONTAL, Sistema.HORARIO, Sistema.ECUATORIAL,
          Sistema.ECLIPTICO, Sistema.GALACTICO,
          Unidad.RAD, Unidad.DEG, Unidad.HOUR, Unidad.DMS, Unidad.HMS,
          except_bind_ok, except_bind_error]

/-- Claim C10 amended, witness: the theorem instantiated at (0, 30, 0). -/
theorem c10_amended_witness :
    transformar (Valor.triplet 0 30 0) (Valor.triplet 0 0 0) Sistema.ECLIPTICO
      Sistema.ECLIPTICO Unidad.DMS Unidad.RAD []
      = .ok (Valor.scalar (radiansR (30/60 + 0/3600)), Valor.scalar 0) ∧
    0 ≤ radiansR (30/60 + 0/3600) :=
  c10_amended.1 30 0 (by norm_num) (by norm_num)
